import Mathlib

/-
  Verification development for the Prompt_Factory repository.

  Shallow embedding of the Python sources under src/:
    - src/core/config_manager.py      (ConfigManager)
    - src/core/model_manager.py       (ModelProvider, ModelManager)
    - src/core/openai_provider.py     (OpenAIProvider)
    - src/core/anthropic_provider.py  (AnthropicProvider)
    - src/core/prompt_processor.py    (PromptProcessor)
    - src/utils/task_manager.py       (TaskState, TaskManager)

  Conventions of the embedding:
    - Python dicts are association lists `List (String × _)` preserving
      insertion order; `getEntry`/`setEntry` model item lookup and item
      assignment.
    - Machine clocks (`time.time()`) are passed explicitly as `Int`
      parameters, one per textual call site.
    - Python name resolution is modelled where a claim depends on it: a
      list of the names actually bound in the relevant scope, and a
      lookup that produces the NameError text when the name is absent.
    - Fallible code returns `Except`/`Option`; an uncaught Python
      exception is an `Except.error`.
    - Bilingual log/message strings of the source are kept as their
      English half; purely-Chinese message strings are kept verbatim.
-/

namespace PromptFactory

/-- Lookup in a Python dict modelled as an insertion-ordered association
list (`d[k]` / `k in d` / `d.get(k)`). -/
def getEntry {α : Type} : List (String × α) → String → Option α
  | [], _ => none
  | (k, x) :: rest, key => if k = key then some x else getEntry rest key

/-- Item assignment `d[k] = v` on a Python dict: replaces the value of an
existing key in place, otherwise appends at the end (insertion order). -/
def setEntry {α : Type} : List (String × α) → String → α → List (String × α)
  | [], key, v => [(key, v)]
  | (k, x) :: rest, key, v =>
      if k = key then (k, v) :: rest else (k, x) :: setEntry rest key v

/-- Python name resolution in a given scope: returns the name itself when
it is bound, otherwise the NameError message that CPython raises. -/
def evalName (bound : List String) (n : String) : Except String String :=
  if bound.contains n then Except.ok n
  else Except.error ("NameError: name " ++ n ++ " is not defined")

/-! ## ConfigManager (src/core/config_manager.py) -/

/-- Python configuration value: a dict (nested mapping) or any non-dict
value. `prim` abstracts numbers, strings, booleans and null; the tag
string only distinguishes concrete values. For the claims at stake only
the dict / non-dict distinction matters: membership tests and item
assignment on a non-dict raise `TypeError`, and `.get` on a non-dict
raises `AttributeError`, all caught by the `except` clauses of
`update_config` / `get_config_value`. -/
inductive PyVal : Type where
  | prim (tag : String)
  | dict (entries : List (String × PyVal))

/-- Traversal of `ConfigManager.update_config` (lines 100-112): walk
`parts[:-1]`, creating empty dicts for missing segments, then assign the
last segment. Encountering a non-dict raises `TypeError` (modelled as
`Except.error`), which the caller catches; in that case no mutation has
happened, because dict creation only occurs below segments that were
missing, while a non-dict can only be met at a pre-existing segment. -/
def updatePath : PyVal → List String → PyVal → Except String PyVal
  | PyVal.dict d, [last], v => Except.ok (PyVal.dict (setEntry d last v))
  | PyVal.dict d, p :: q :: rest, v =>
      let sub := match getEntry d p with
                 | none => PyVal.dict []
                 | some c => c
      match updatePath sub (q :: rest) v with
      | Except.ok sub' => Except.ok (PyVal.dict (setEntry d p sub'))
      | Except.error e => Except.error e
  | PyVal.dict _, [], _ => Except.error "empty key"
  | PyVal.prim _, _, _ => Except.error "TypeError"

/-- Traversal of `ConfigManager.get_config_value` (lines 129-142): walk
`parts[:-1]`; a missing segment returns the default (`none`); the final
segment is read with `.get`. Any `TypeError`/`AttributeError` from a
non-dict is caught and also yields the default. -/
def getPath : PyVal → List String → Option PyVal
  | PyVal.dict d, [last] => getEntry d last
  | PyVal.dict d, p :: q :: rest =>
      match getEntry d p with
      | none => none
      | some c => getPath c (q :: rest)
  | PyVal.dict _, [] => none
  | PyVal.prim _, _ => none

/-- Characterization of the key paths on which the `update_config`
traversal succeeds against a starting configuration: every strict prefix
of the path is either unbound (the traversal creates an empty mapping
for it) or bound to a mapping. -/
def pathWritable : PyVal → List String → Bool
  | PyVal.dict _, [_] => true
  | PyVal.dict d, p :: q :: rest =>
      (match getEntry d p with
       | none => true
       | some c => pathWritable c (q :: rest))
  | PyVal.dict _, [] => false
  | PyVal.prim _, _ => false

/-- State of a `ConfigManager`: the in-memory `self.config` and the
content currently persisted in the backing `config.json` file. -/
structure CMState : Type where
  config : PyVal
  file : PyVal

/-- ConfigManager.save_config (lines 73-88): tries to write `c` to the
backing file; `writeOk` says whether the file write succeeds. On success
the file and `self.config` both become `c`; on failure everything is left
as it was and `false` is returned. -/
def ConfigManager.saveConfig (st : CMState) (writeOk : Bool) (c : PyVal) : Bool × CMState :=
  if writeOk then (true, ⟨c, c⟩) else (false, st)

/-- ConfigManager.update_config (lines 90-117): mutate the in-memory
config at a dotted key (already split into `path`), then persist via
`save_config`. A `TypeError` during the traversal is caught and yields
`false` with nothing changed. Note that when the traversal succeeds the
in-memory config is already mutated before `save_config` runs, so a
failed write leaves the new value in memory but not in the file. -/
def ConfigManager.updateConfig (st : CMState) (writeOk : Bool) (path : List String) (v : PyVal) :
    Bool × CMState :=
  match updatePath st.config path v with
  | Except.error _ => (false, st)
  | Except.ok cfg' => ConfigManager.saveConfig ⟨cfg', st.file⟩ writeOk cfg'

/-- ConfigManager.get_config_value (lines 119-142) against the in-memory
config; `none` models returning the `default` argument. -/
def ConfigManager.getConfigValue (st : CMState) (path : List String) : Option PyVal :=
  getPath st.config path

/-- Observable states of the backing `config.json` file as seen by
`load_config`: absent, unreadable (`PermissionError` on open/read), or
readable with content that either fails or succeeds JSON parsing. -/
inductive ConfigFile : Type where
  | missing
  | unreadable
  | badJson
  | goodJson (cfg : PyVal)

/-- Names bound at module level in src/core/config_manager.py: the
imports of lines 6-8 and the class of line 11. No `logging` import and
no `logger` assignment exist anywhere in that module. -/
def configManagerGlobals : List String :=
  ["os", "json", "Dict", "Any", "Optional", "Union", "Tuple", "ConfigManager"]

/-- ConfigManager.load_config (lines 45-71). A missing file is populated
with `defaultCfg` and that is returned. A good file returns its parsed
content. The `except json.JSONDecodeError` handler (line 61) and the
`except PermissionError` handler (line 65) first evaluate
`logger.error(...)`; the resulting exception from resolving `logger`
inside an except handler is not caught by the sibling clauses and
propagates to the caller. When the name resolves, the handler falls back
to a copy of the default configuration. -/
def ConfigManager.loadConfig (file : ConfigFile) (defaultCfg : PyVal) : Except String PyVal :=
  match file with
  | ConfigFile.missing => Except.ok defaultCfg
  | ConfigFile.goodJson cfg => Except.ok cfg
  | ConfigFile.badJson =>
      match evalName configManagerGlobals "logger" with
      | Except.ok _ => Except.ok defaultCfg
      | Except.error e => Except.error e
  | ConfigFile.unreadable =>
      match evalName configManagerGlobals "logger" with
      | Except.ok _ => Except.ok defaultCfg
      | Except.error e => Except.error e

/-! ## ModelProvider and concrete providers (src/core/model_manager.py,
src/core/openai_provider.py, src/core/anthropic_provider.py) -/

/-- Attributes set by `ModelProvider.__init__` (model_manager.py lines
25-39). The cache file path is derived below. -/
structure Provider : Type where
  provider_id : String
  name : String
  api_url : String
  cache_dir : String
deriving DecidableEq

/-- ModelProvider cache file path `<cache_dir>/<provider_id>_models.json`
(model_manager.py line 39, `os.path.join` on POSIX). -/
def Provider.cacheFile (p : Provider) : String :=
  p.cache_dir ++ "/" ++ p.provider_id ++ "_models.json"

/-- OpenAIProvider.__init__ (openai_provider.py lines 21-27). -/
def OpenAIProvider.init (cacheDir : String) : Provider :=
  ⟨"openai", "OpenAI", "https://api.openai.com/v1/models", cacheDir⟩

/-- AnthropicProvider.__init__ (anthropic_provider.py lines 21-27). -/
def AnthropicProvider.init (cacheDir : String) : Provider :=
  ⟨"anthropic", "Anthropic", "https://api.anthropic.com/v1/models", cacheDir⟩

/-- Modelled from the spec: `deepseek_provider.py` is imported by
`ModelManager.__init__` (model_manager.py line 107) but is not present
under src/. Per the spec the provider registers identifier `deepseek`,
display name DeepSeek, its own model-listing endpoint (not fixed by the
spec and irrelevant to the claims below), and is bound to the cache
directory passed at construction like the other providers. -/
def DeepSeekProvider.init (cacheDir : String) : Provider :=
  ⟨"deepseek", "DeepSeek", "https://api.deepseek.com/v1/models", cacheDir⟩

/-- Modelled from the spec: `openrouter_provider.py` is imported by
`ModelManager.__init__` (model_manager.py line 109) but is not present
under src/. Per the spec the provider registers identifier `openrouter`,
display name OpenRouter, its own model-listing endpoint (not fixed by
the spec and irrelevant to the claims below), and is bound to the cache
directory passed at construction like the other providers. -/
def OpenRouterProvider.init (cacheDir : String) : Provider :=
  ⟨"openrouter", "OpenRouter", "https://openrouter.ai/api/v1/models", cacheDir⟩

/-- ModelManager.register_provider (model_manager.py lines 116-122):
`self.providers[provider.provider_id] = provider`. -/
def ModelManager.registerProvider (d : List (String × Provider)) (p : Provider) :
    List (String × Provider) :=
  setEntry d p.provider_id p

/-- ModelManager.__init__ (model_manager.py lines 94-114): starting from
an empty registry, registers the DeepSeek, OpenAI, OpenRouter and
Anthropic providers in that order, each constructed over the same
`cacheDir`. The `os.makedirs` side effect is outside the model. -/
def ModelManager.initProviders (cacheDir : String) : List (String × Provider) :=
  ModelManager.registerProvider
    (ModelManager.registerProvider
      (ModelManager.registerProvider
        (ModelManager.registerProvider [] (DeepSeekProvider.init cacheDir))
        (OpenAIProvider.init cacheDir))
      (OpenRouterProvider.init cacheDir))
    (AnthropicProvider.init cacheDir)

/-- Normalized model descriptor `{id, name, description, provider}`
built by the providers' `_process_response`. -/
structure ModelDesc : Type where
  id : String
  name : String
  description : String
  provider : String
deriving DecidableEq

/-- What `ModelManager.get_models` observes when reading a provider's
cache file: absent, present but unreadable/unparseable, or parsed with a
timestamp and model list. -/
inductive CacheRead : Type where
  | missing
  | corrupt
  | good (timestamp : Int) (models : List ModelDesc)

/-- ModelManager.get_models for a registered provider (model_manager.py
lines 124-179). `now` is the `time.time()` read at line 150; `fetched`
is the outcome of `provider.fetch_models` (`none` = fetch failed). The
second component records whether `fetch_models` was invoked. Freshness:
the cache is served iff `now - timestamp < 24 * 3600`. On fetch failure
the cache file is re-read and its models returned with no age check, or
`[]` if the file is absent or unreadable. The cache write-back after a
successful fetch (lines 170-177) does not affect the returned value and
is not modelled. -/
def ModelManager.getModels (cache : CacheRead) (now : Int)
    (fetched : Option (List ModelDesc)) (forceRefresh : Bool) :
    List ModelDesc × Bool :=
  let cachedFresh : Option (List ModelDesc) :=
    if forceRefresh then none
    else
      match cache with
      | CacheRead.good ts ms => if now - ts < 24 * 3600 then some ms else none
      | _ => none
  match cachedFresh with
  | some ms => (ms, false)
  | none =>
      match fetched with
      | some ms => (ms, true)
      | none =>
          match cache with
          | CacheRead.good _ ms => (ms, true)
          | CacheRead.corrupt => ([], true)
          | CacheRead.missing => ([], true)

/-- One entry of the `models` array of an Anthropic listing response, as
read by `AnthropicProvider._process_response` (`model.get("name")`,
`model.get("description", "")`). -/
structure AnthEntry : Type where
  name : Option String
  description : Option String
deriving DecidableEq

/-- Shaping loop of AnthropicProvider._process_response (lines 81-90):
entries whose `name` is absent or empty (Python falsiness of `""`) are
dropped; otherwise `name` becomes both `id` and `name`. -/
def anthropicShapeModels (entries : List AnthEntry) : List ModelDesc :=
  entries.filterMap (fun e =>
    match e.name with
    | none => none
    | some n => if n = "" then none else some ⟨n, n, e.description.getD "", "anthropic"⟩)

/-- Hardcoded descriptor appended by AnthropicProvider._process_response
(lines 93-99) when no shaped entry has id `claude-3-7-sonnet`. -/
def claude37Fallback : ModelDesc :=
  ⟨"claude-3-7-sonnet", "Claude 3.7 Sonnet",
   "Claude 3.7 Sonnet - Anthropic的高性能语言模型", "anthropic"⟩

/-- AnthropicProvider._process_response (lines 71-101): shape the
response entries, then append the fallback descriptor iff no shaped
entry already has id `claude-3-7-sonnet`. -/
def anthropicProcessResponse (entries : List AnthEntry) : List ModelDesc :=
  let models := anthropicShapeModels entries
  if models.any (fun m => m.id == "claude-3-7-sonnet") then models
  else models ++ [claude37Fallback]

/-! ## PromptProcessor vendor chat calls (src/core/prompt_processor.py) -/

/-- One HTTP response of a chat-completions POST. `status` is
`response.status_code`, `body` is `response.text`, and `content` is the
value of `response.json()["choices"][0]["message"]["content"]` when the
body is a well-formed 200 chat payload. -/
structure HttpResp : Type where
  status : Nat
  body : String
  content : String
deriving DecidableEq

/-- ProcessingError (prompt_processor.py lines 19-23): a message plus a
details dict. Only the detail keys the claims depend on are modelled;
generated correlation ids (`request_id`), remediation suggestions and
network diagnostics are elided from the details. -/
structure PError : Type where
  msg : String
  details : List (String × String)
deriving DecidableEq

/-- Retryable HTTP status codes, `[429, 500, 502, 503, 504]` in all
three vendor call methods (lines 256, 358, 518). -/
def retryableStatus (s : Nat) : Bool :=
  [429, 500, 502, 503, 504].contains s

/-- Local names bound in `_call_openai_api` / `_call_openrouter_api`
when control reaches the success-path log statement (lines 272 / 374):
the parameters of lines 214 / 316 and the assignments of lines 228-270 /
330-372. Neither method ever assigns `request_id`; only
`_call_deepseek_api` does (line 457). -/
def chatCallBoundLocals : List String :=
  ["self", "system_msg", "user_msg", "model_name", "current_retry",
   "headers", "data", "response", "result"]

/-- Failure raised by `_call_openai_api` / `_call_openrouter_api` on a
non-retryable (or retry-exhausted) non-200 response (lines 265-268 /
367-370): message carries the status code, details carry the response
body. -/
def chatFailError (vendor : String) (r : HttpResp) : PError :=
  ⟨vendor ++ " API returned error: " ++ toString r.status, [("response", r.body)]⟩

/-- Error produced on the 200 path of `_call_openai_api` /
`_call_openrouter_api`: the success log line reads the unbound name
`request_id`, and the resulting NameError is caught by the generic
`except Exception` clause (lines 307-311 / 409-413) and wrapped. -/
def chatSuccessNameError (vendor : String) : PError :=
  ⟨"Error calling " ++ vendor ++ " API",
   [("original_error", "NameError: name request_id is not defined")]⟩

/-- Retry loop shared verbatim (aside from the vendor name in message
text) by `_call_openai_api` (lines 228-314) and `_call_openrouter_api`
(lines 330-416), restricted to runs whose attempts all complete with an
HTTP response (no transport exception). `resp k` is the response of
attempt `k` (0-based; `current_retry = k` at the top of that
iteration). Returns the list of back-off sleeps performed and the
outcome. On a 200 response the code runs `result = response.json()` and
then logs through an f-string that evaluates `request_id` (line 272 /
374), a name not bound in this scope, so the NameError is wrapped and
raised instead of `result["choices"][0]["message"]["content"]` being
returned. On a retryable non-200 with retries remaining, `current_retry`
is incremented and the loop sleeps
`min(retry_interval * 2 ** current_retry, 60)` (lines 256-263 /
358-365). -/
def chatCallLoop (vendor : String) (retryInterval maxRetries : Nat)
    (resp : Nat → HttpResp) (cur : Nat) : List Nat × Except PError String :=
  let r := resp cur
  if r.status = 200 then
    match evalName chatCallBoundLocals "request_id" with
    | Except.ok _ => ([], Except.ok r.content)
    | Except.error e =>
        ([], Except.error ⟨"Error calling " ++ vendor ++ " API", [("original_error", e)]⟩)
  else if h : retryableStatus r.status = true ∧ cur < maxRetries then
    let wait := min (retryInterval * 2 ^ (cur + 1)) 60
    let rest := chatCallLoop vendor retryInterval maxRetries resp (cur + 1)
    (wait :: rest.1, rest.2)
  else
    ([], Except.error (chatFailError vendor r))
termination_by maxRetries - cur
decreasing_by omega

/-- `_call_openai_api` entered with `current_retry = 0` (line 228). -/
def callOpenaiApi (retryInterval maxRetries : Nat) (resp : Nat → HttpResp) :
    List Nat × Except PError String :=
  chatCallLoop "OpenAI" retryInterval maxRetries resp 0

/-- `_call_openrouter_api` entered with `current_retry = 0` (line 330). -/
def callOpenrouterApi (retryInterval maxRetries : Nat) (resp : Nat → HttpResp) :
    List Nat × Except PError String :=
  chatCallLoop "OpenRouter" retryInterval maxRetries resp 0

/-- Status-code classification tag of `_call_deepseek_api` (lines
471-502), stored under the `error_type` details key. -/
def deepseekErrorType (s : Nat) : String :=
  if s = 400 then "bad_request"
  else if s = 401 then "unauthorized"
  else if s = 403 then "forbidden"
  else if s = 404 then "not_found"
  else if s = 429 then "rate_limited"
  else if s = 500 then "server_error"
  else if s = 502 ∨ s = 503 ∨ s = 504 then "service_unavailable"
  else "unknown_http_error"

/-- Failure raised by `_call_deepseek_api` on a non-retryable (or
retry-exhausted) non-200 response (lines 462-527): the details dict
carries the status code, the response body and the classification tag
(the correlation id and remediation suggestion are elided). -/
def deepseekFailError (r : HttpResp) : PError :=
  ⟨"DeepSeek API error", [("status_code", toString r.status),
    ("response", r.body), ("error_type", deepseekErrorType r.status)]⟩

/-- Retry loop of `_call_deepseek_api` (lines 432-690), restricted to
runs whose attempts all complete with an HTTP response. Identical retry
arithmetic to `chatCallLoop`; on a 200 response this method returns
`result["choices"][0]["message"]["content"]` (line 541) — here
`request_id` is bound (line 457), so the success path completes. -/
def deepseekCallLoop (retryInterval maxRetries : Nat)
    (resp : Nat → HttpResp) (cur : Nat) : List Nat × Except PError String :=
  let r := resp cur
  if r.status = 200 then
    ([], Except.ok r.content)
  else if h : retryableStatus r.status = true ∧ cur < maxRetries then
    let wait := min (retryInterval * 2 ^ (cur + 1)) 60
    let rest := deepseekCallLoop retryInterval maxRetries resp (cur + 1)
    (wait :: rest.1, rest.2)
  else
    ([], Except.error (deepseekFailError r))
termination_by maxRetries - cur
decreasing_by omega

/-- `_call_deepseek_api` entered with `current_retry = 0` (line 432). -/
def callDeepseekApi (retryInterval maxRetries : Nat) (resp : Nat → HttpResp) :
    List Nat × Except PError String :=
  deepseekCallLoop retryInterval maxRetries resp 0

/-- Error propagation of `process_content` (lines 117-142) given the
outcome of the dispatched vendor call: `_call_model_api` (lines 182-212)
re-raises a ProcessingError unchanged, and `process_content` wraps any
exception into `ProcessingError("处理内容时出错", original_error=str(e))`
where `str` of a ProcessingError is its message. -/
def processContentResult (vendorRes : Except PError String) : Except PError String :=
  match vendorRes with
  | Except.ok s => Except.ok s
  | Except.error e => Except.error ⟨"处理内容时出错", [("original_error", e.msg)]⟩

/-! ## PromptProcessor.process_directory skip rules (lines 715-876) -/

/-- Check whether the pattern occurs as a contiguous run of characters,
String `in` of Python (`"_optimized" in file_name`, line 792). -/
def charsStartWith : List Char → List Char → Bool
  | _, [] => true
  | [], _ :: _ => false
  | a :: as, b :: bs => a = b && charsStartWith as bs

def charsContainSub : List Char → List Char → Bool
  | l, pat =>
      if charsStartWith l pat then true
      else
        match l with
        | [] => false
        | _ :: tl => charsContainSub tl pat

def strContainsSub (s pat : String) : Bool :=
  charsContainSub s.toList pat.toList

/-- Index of the last `.` in a list of characters, if any. -/
def lastDotIdx (cs : List Char) : Option Nat :=
  (List.range cs.length).foldl
    (fun acc i => if cs.getD i ' ' = '.' then some i else acc) none

/-- Extension part of `os.path.splitext` on a plain file name (no
directory separators): the suffix starting at the last dot, unless every
character before that dot is itself a dot (CPython's genericpath
`_splitext`). `process_directory` lowercases it (line 781). -/
def pySplitextExt (name : String) : String :=
  let cs := name.toList
  match lastDotIdx cs with
  | none => ""
  | some i => if (cs.take i).any (fun c => c ≠ '.') then String.mk (cs.drop i) else ""

/-- Lowercasing applied to the extension (`.lower()`, line 781),
modelled character-wise. -/
def strLowerAscii (s : String) : String :=
  String.mk (s.toList.map Char.toLower)

/-- Outcome of the per-file dispatch in `process_directory.process_file`
(lines 779-799): skipped for extension mismatch (checked first, lines
784-789), skipped for an `_optimized` file name (lines 792-797), or
counted into `total` and processed (line 799). -/
inductive FileFate : Type where
  | skippedExt
  | skippedOptimized
  | processed
deriving DecidableEq

/-- Skip/process classification of one candidate file name under a
normalized extension filter (`none` = accept every extension). -/
def classifyFile (filt : Option (List String)) (name : String) : FileFate :=
  let ext := strLowerAscii (pySplitextExt name)
  match filt with
  | some exts =>
      if ¬ exts.contains ext then FileFate.skippedExt
      else if strContainsSub name "_optimized" then FileFate.skippedOptimized
      else FileFate.processed
  | none =>
      if strContainsSub name "_optimized" then FileFate.skippedOptimized
      else FileFate.processed

/-- Normalization of the `file_extensions` argument by
`process_directory` (lines 740-744): `None` defaults to `['.md']`, the
empty list means "process all files". -/
def normalizeExts : Option (List String) → Option (List String)
  | none => some [".md"]
  | some [] => none
  | some exts => some exts

/-- Accumulated `(total, skipped)` counters of `process_directory` over
the candidate file names it walks. -/
def processDirectoryCounts (exts : Option (List String)) (names : List String) : Nat × Nat :=
  let filt := normalizeExts exts
  names.foldl
    (fun acc name =>
      match classifyFile filt name with
      | FileFate.processed => (acc.1 + 1, acc.2)
      | _ => (acc.1, acc.2 + 1))
    (0, 0)

/-! ## TaskState and TaskManager (src/utils/task_manager.py) -/

/-- Mutable counters of a task (task_manager.py lines 41-49). -/
structure TStats : Type where
  total : Nat
  processed : Nat
  success : Nat
  failed : Nat
  skipped : Nat
  failed_files : List String
  processed_files : List String
deriving DecidableEq

/-- TaskState (lines 24-51); clock-valued fields are `Int` seconds. -/
structure TaskState : Type where
  task_id : String
  input_path : String
  output_path : String
  start_time : Int
  end_time : Option Int
  status : String
  stats : TStats
  current_file : Option String
  last_update : Int
deriving DecidableEq

/-- TaskState.update_progress (lines 90-107): records the file, bumps
`processed` and `success`/`failed`, and stamps `last_update` with the
`time.time()` read of line 107 (`now`). -/
def TaskState.updateProgress (t : TaskState) (file : String) (success : Bool)
    (now : Int) : TaskState :=
  { t with
    current_file := some file
    stats := { t.stats with
      processed := t.stats.processed + 1
      processed_files := t.stats.processed_files ++ [file]
      success := if success then t.stats.success + 1 else t.stats.success
      failed := if success then t.stats.failed else t.stats.failed + 1
      failed_files := if success then t.stats.failed_files else t.stats.failed_files ++ [file] }
    last_update := now }

/-- TaskManager.update_progress (lines 274-296): forwards to the current
task's `update_progress` (whose final statement sets `last_update` to
the clock read `t1` of line 107), then decides whether to persist a
checkpoint with `processed % 10 == 0 or time.time() - last_update > 30`
(line 294-295), where `t2` is the clock read of line 295. Returns the
new task state and whether `_save_checkpoint` was called. -/
def TaskManager.updateProgress (task : Option TaskState) (file : String)
    (success : Bool) (t1 t2 : Int) : Option TaskState × Bool :=
  match task with
  | none => (none, false)
  | some t =>
      let t' := t.updateProgress file success t1
      (some t', t'.stats.processed % 10 == 0 || decide (t2 - t'.last_update > 30))

/-- Concrete task state: created (and therefore checkpointed, lines
199-202) at time 0, no file processed yet. -/
def freshTask : TaskState :=
  ⟨"20240601120000-AB12", "in", "out", 0, none, "running",
   ⟨3, 0, 0, 0, 0, [], []⟩, none, 0⟩

/-! ## Helper lemmas -/

theorem getEntry_setEntry_self {α : Type} (d : List (String × α)) (k : String) (v : α) :
    getEntry (setEntry d k v) k = some v := by
  induction d with
  | nil => simp [setEntry, getEntry]
  | cons hd tl ih =>
      by_cases h : hd.1 = k
      · simp [setEntry, getEntry, h]
      · simp [setEntry, getEntry, h, ih]

theorem retryableStatus_ne_200 {s : Nat} (h : retryableStatus s = true) : s ≠ 200 := by
  intro hs
  subst hs
  simp [retryableStatus] at h

theorem pathWritable_empty_dict (path : List String) (hne : path ≠ []) :
    pathWritable (PyVal.dict []) path = true := by
  match path with
  | [] => exact absurd rfl hne
  | [p] => rfl
  | p :: q :: rest => simp [pathWritable, getEntry]

theorem pathWritable_updatePath (cfg : PyVal) (path : List String) (v : PyVal)
    (hw : pathWritable cfg path = true) :
    ∃ cfg', updatePath cfg path v = Except.ok cfg' := by
  induction path generalizing cfg with
  | nil => cases cfg <;> simp [pathWritable] at hw
  | cons p rest ih =>
      cases cfg with
      | prim t => simp [pathWritable] at hw
      | dict d =>
          cases rest with
          | nil => exact ⟨PyVal.dict (setEntry d p v), rfl⟩
          | cons q rest' =>
              cases hget : getEntry d p with
              | none =>
                  have hw' : pathWritable (PyVal.dict []) (q :: rest') = true :=
                    pathWritable_empty_dict _ (by simp)
                  obtain ⟨sub', hsub⟩ := ih (PyVal.dict []) hw'
                  exact ⟨PyVal.dict (setEntry d p sub'), by simp [updatePath, hget, hsub]⟩
              | some c =>
                  have hw' : pathWritable c (q :: rest') = true := by
                    simpa [pathWritable, hget] using hw
                  obtain ⟨sub', hsub⟩ := ih c hw'
                  exact ⟨PyVal.dict (setEntry d p sub'), by simp [updatePath, hget, hsub]⟩

theorem getPath_updatePath (path : List String) (cfg v cfg' : PyVal)
    (hok : updatePath cfg path v = Except.ok cfg') :
    getPath cfg' path = some v := by
  induction path generalizing cfg cfg' with
  | nil => cases cfg <;> simp [updatePath] at hok
  | cons p rest ih =>
      cases cfg with
      | prim t => simp [updatePath] at hok
      | dict d =>
          cases rest with
          | nil =>
              simp only [updatePath, Except.ok.injEq] at hok
              subst hok
              simpa [getPath] using getEntry_setEntry_self d p v
          | cons q rest' =>
              cases hsub : updatePath (match getEntry d p with
                                       | none => PyVal.dict []
                                       | some c => c) (q :: rest') v with
              | error e => rw [updatePath, hsub] at hok; cases hok
              | ok sub' =>
                  rw [updatePath, hsub] at hok
                  cases hok
                  simp [getPath, getEntry_setEntry_self, ih _ _ hsub]

theorem chatCallLoop_success (vendor : String) (ri mr : Nat) (resp : Nat → HttpResp)
    (cur : Nat) (h : (resp cur).status = 200) :
    chatCallLoop vendor ri mr resp cur = ([], Except.error (chatSuccessNameError vendor)) := by
  rw [chatCallLoop.eq_def]
  simp [h, evalName, chatCallBoundLocals, chatSuccessNameError]

theorem chatCallLoop_all_retryable (vendor : String) (ri mr : Nat) (resp : Nat → HttpResp)
    (hall : ∀ n, retryableStatus (resp n).status = true) :
    ∀ k cur, cur + k = mr →
      chatCallLoop vendor ri mr resp cur
        = ((List.range' (cur + 1) k).map (fun n => min (ri * 2 ^ n) 60),
           Except.error (chatFailError vendor (resp mr))) := by
  intro k
  induction k with
  | zero =>
      intro cur hcur
      have hcur' : cur = mr := by omega
      subst hcur'
      rw [chatCallLoop.eq_def]
      have h200 : ¬ (resp cur).status = 200 := retryableStatus_ne_200 (hall cur)
      have hnc : ¬ (retryableStatus (resp cur).status = true ∧ cur < cur) := by
        rintro ⟨-, hlt⟩
        omega
      simp [h200, hnc]
  | succ k ih =>
      intro cur hcur
      rw [chatCallLoop.eq_def]
      have h200 : ¬ (resp cur).status = 200 := retryableStatus_ne_200 (hall cur)
      have hc : retryableStatus (resp cur).status = true ∧ cur < mr := ⟨hall cur, by omega⟩
      simp only [h200, if_false, hc, dif_pos, and_self]
      rw [ih (cur + 1) (by omega), List.range'_succ, List.map_cons]

theorem deepseekCallLoop_all_retryable (ri mr : Nat) (resp : Nat → HttpResp)
    (hall : ∀ n, retryableStatus (resp n).status = true) :
    ∀ k cur, cur + k = mr →
      deepseekCallLoop ri mr resp cur
        = ((List.range' (cur + 1) k).map (fun n => min (ri * 2 ^ n) 60),
           Except.error (deepseekFailError (resp mr))) := by
  intro k
  induction k with
  | zero =>
      intro cur hcur
      have hcur' : cur = mr := by omega
      subst hcur'
      rw [deepseekCallLoop.eq_def]
      have h200 : ¬ (resp cur).status = 200 := retryableStatus_ne_200 (hall cur)
      have hnc : ¬ (retryableStatus (resp cur).status = true ∧ cur < cur) := by
        rintro ⟨-, hlt⟩
        omega
      simp [h200, hnc]
  | succ k ih =>
      intro cur hcur
      rw [deepseekCallLoop.eq_def]
      have h200 : ¬ (resp cur).status = 200 := retryableStatus_ne_200 (hall cur)
      have hc : retryableStatus (resp cur).status = true ∧ cur < mr := ⟨hall cur, by omega⟩
      simp only [h200, if_false, hc, dif_pos, and_self]
      rw [ih (cur + 1) (by omega), List.range'_succ, List.map_cons]

/-! ## Claims -/

/-- C1: the claim states that a 200 chat-completion response through
`_call_openai_api` / `_call_openrouter_api` yields the first choice's
message content and `process_content` returns it. In the code, the
success path's log line evaluates the unbound name `request_id`, so both
methods raise a ProcessingError wrapping the NameError instead of
returning the reply text, and `process_content` re-wraps and raises.
This theorem evaluates the code on the claim's scenario: for any run
whose first response has status 200, neither wait nor reply is produced
and the outcome is the wrapped NameError. -/
theorem chat_success_path_raises (ri mr : Nat) (resp : Nat → HttpResp)
    (h : (resp 0).status = 200) :
    callOpenaiApi ri mr resp = ([], Except.error (chatSuccessNameError "OpenAI")) ∧
    callOpenrouterApi ri mr resp = ([], Except.error (chatSuccessNameError "OpenRouter")) ∧
    processContentResult (callOpenaiApi ri mr resp).2
      = Except.error ⟨"处理内容时出错", [("original_error", "Error calling OpenAI API")]⟩ := by
  have ho := chatCallLoop_success "OpenAI" ri mr resp 0 h
  have hr := chatCallLoop_success "OpenRouter" ri mr resp 0 h
  refine ⟨ho, hr, ?_⟩
  have h2 : (callOpenaiApi ri mr resp).2 = Except.error (chatSuccessNameError "OpenAI") := by
    unfold callOpenaiApi
    rw [ho]
  rw [h2]
  rfl

/-- Witness for C1's theorem at a concrete 200 response. -/
theorem chat_success_path_raises_witness :
    ((fun _ : Nat => (⟨200, "raw body", "Hello"⟩ : HttpResp)) 0).status = 200 ∧
    callOpenaiApi 3 5 (fun _ : Nat => (⟨200, "raw body", "Hello"⟩ : HttpResp))
      = ([], Except.error (chatSuccessNameError "OpenAI")) :=
  ⟨rfl, (chat_success_path_raises 3 5 (fun _ => ⟨200, "raw body", "Hello"⟩) rfl).1⟩

/-- C2: constructing a ModelManager registers exactly the four providers
deepseek, openai, openrouter, anthropic (in registration order), each
recording its own identifier and the shared cache directory passed at
construction. -/
theorem model_manager_registers_four_providers (cacheDir : String) :
    (ModelManager.initProviders cacheDir).map Prod.fst
        = ["deepseek", "openai", "openrouter", "anthropic"] ∧
    ∀ e ∈ ModelManager.initProviders cacheDir,
      e.2.provider_id = e.1 ∧ e.2.cache_dir = cacheDir := by
  constructor
  · rfl
  · intro e he
    simp [ModelManager.initProviders, ModelManager.registerProvider,
      DeepSeekProvider.init, OpenAIProvider.init, OpenRouterProvider.init,
      AnthropicProvider.init, setEntry] at he
    rcases he with rfl | rfl | rfl | rfl
    · exact ⟨rfl, rfl⟩
    · exact ⟨rfl, rfl⟩
    · exact ⟨rfl, rfl⟩
    · exact ⟨rfl, rfl⟩

/-- C3: the claim states that `load_config` degrades to the default
configuration, without raising, when the backing file is unreadable or
not valid JSON. In the code both handlers call `logger.error`, and
`logger` is bound nowhere in config_manager.py, so a NameError
propagates to the caller instead. The missing-file and good-file paths
behave as specified. -/
theorem config_load_bad_file_raises_name_error (defaultCfg : PyVal) :
    ConfigManager.loadConfig ConfigFile.badJson defaultCfg
        = Except.error "NameError: name logger is not defined" ∧
    ConfigManager.loadConfig ConfigFile.unreadable defaultCfg
        = Except.error "NameError: name logger is not defined" ∧
    ConfigManager.loadConfig ConfigFile.missing defaultCfg = Except.ok defaultCfg ∧
    ∀ cfg, ConfigManager.loadConfig (ConfigFile.goodJson cfg) defaultCfg = Except.ok cfg :=
  ⟨rfl, rfl, rfl, fun _ => rfl⟩

/-- C4: the claim states that `TaskManager.update_progress` persists a
checkpoint when the processed count is a multiple of 10 OR when more
than 30 seconds have elapsed since the last persisted checkpoint. In the
code, `TaskState.update_progress` stamps `last_update` with the current
clock immediately before the manager compares the clock against
`last_update`, so with the two successive clock reads of one call at the
same instant the elapsed-time clause never fires: a checkpoint is
persisted exactly when the new processed count is a multiple of 10. In
particular a call arriving 31 seconds after the task's creation-time
checkpoint (with processed going 0 to 1) persists nothing. -/
theorem task_checkpoint_time_clause_never_fires :
    (∀ (t : TaskState) (file : String) (success : Bool) (now : Int),
       (TaskManager.updateProgress (some t) file success now now).2
         = ((t.stats.processed + 1) % 10 == 0)) ∧
    (TaskManager.updateProgress (some freshTask) "a.md" true 31 31).2 = false := by
  constructor
  · intro t file success now
    have h0 : decide ((now : Int) - now > 30) = false := by
      rw [Int.sub_self]
      rfl
    simp [TaskManager.updateProgress, TaskState.updateProgress, h0]
  · rfl

/-- C5 counterexample: the claim asserts the update-then-get round trip
for every starting configuration, "including when a prefix of the path
is already bound to a non-mapping value". With `a` bound to a non-dict,
`update_config("a.b", v)` hits a TypeError, returns false and changes
nothing, and `get_config_value("a.b")` returns the default, not `v`. -/
theorem config_roundtrip_nonmapping_prefix_cex :
    ConfigManager.updateConfig
        ⟨PyVal.dict [("a", PyVal.prim "5")], PyVal.dict [("a", PyVal.prim "5")]⟩
        true ["a", "b"] (PyVal.prim "7")
      = (false, ⟨PyVal.dict [("a", PyVal.prim "5")], PyVal.dict [("a", PyVal.prim "5")]⟩) ∧
    ConfigManager.getConfigValue
        ⟨PyVal.dict [("a", PyVal.prim "5")], PyVal.dict [("a", PyVal.prim "5")]⟩
        ["a", "b"] ≠ some (PyVal.prim "7") :=
  ⟨rfl, fun h => Option.noConfusion h⟩

/-- C5 amended: for any dotted key path and value, if every strict
prefix of the path is unbound or bound to a mapping in the starting
in-memory configuration (`pathWritable`), then `update_config` followed
by `get_config_value` on the same path returns the value — whether or
not the file write succeeds. -/
theorem config_roundtrip_writable_paths (st : CMState) (writeOk : Bool)
    (path : List String) (v : PyVal) (hw : pathWritable st.config path = true) :
    ConfigManager.getConfigValue (ConfigManager.updateConfig st writeOk path v).2 path
      = some v := by
  obtain ⟨cfg', hok⟩ := pathWritable_updatePath st.config path v hw
  unfold ConfigManager.updateConfig
  rw [hok]
  unfold ConfigManager.saveConfig ConfigManager.getConfigValue
  cases writeOk <;> simp <;> exact getPath_updatePath _ _ _ _ hok

/-- Witness for C5's amended theorem on a fresh empty configuration and
the three-segment path `a.b.c`. -/
theorem config_roundtrip_writable_paths_witness :
    pathWritable (PyVal.dict []) ["a", "b", "c"] = true ∧
    ConfigManager.getConfigValue
        (ConfigManager.updateConfig ⟨PyVal.dict [], PyVal.dict []⟩ true
          ["a", "b", "c"] (PyVal.prim "7")).2
        ["a", "b", "c"] = some (PyVal.prim "7") :=
  ⟨rfl, config_roundtrip_writable_paths ⟨PyVal.dict [], PyVal.dict []⟩ true
    ["a", "b", "c"] (PyVal.prim "7") rfl⟩

/-- C6: without `force_refresh`, a cache entry strictly younger than
86400 seconds is served with no fetch; one 86400 seconds old or older
triggers a fetch, and if the fetch fails the cached models are returned
regardless of age; with no cache file a failed fetch yields the empty
list. -/
theorem get_models_cache_freshness (ts : Int) (ms : List ModelDesc) (now : Int)
    (fetched : Option (List ModelDesc)) :
    (ModelManager.getModels (CacheRead.good ts ms) now fetched false
        = if now - ts < 24 * 3600 then (ms, false)
          else match fetched with
               | some r => (r, true)
               | none => (ms, true)) ∧
    ModelManager.getModels CacheRead.missing now fetched false
        = (match fetched with
           | some r => (r, true)
           | none => ([], true)) := by
  constructor
  · cases fetched with
    | none =>
        by_cases h : now - ts < 86400
        · simp [ModelManager.getModels, h]
        · simp [ModelManager.getModels, h]
    | some r =>
        by_cases h : now - ts < 86400
        · simp [ModelManager.getModels, h]
        · simp [ModelManager.getModels, h]
  · cases fetched <;> rfl

/-- C7: with `retry_interval = 3` and every attempt answered by a
retryable HTTP failure (status in 429/500/502/503/504), the n-th retry
(1-indexed) sleeps `min(3 * 2 ^ n, 60)` seconds, and after `max_retries`
retries the call raises a ProcessingError whose details carry the last
response's status code and body (DeepSeek path; the structurally
identical OpenAI path raises with the status in the message and the body
in the details). -/
theorem deepseek_retry_backoff_schedule (maxRetries : Nat) (resp : Nat → HttpResp)
    (hall : ∀ n, retryableStatus (resp n).status = true) :
    callDeepseekApi 3 maxRetries resp
        = ((List.range' 1 maxRetries).map (fun n => min (3 * 2 ^ n) 60),
           Except.error (deepseekFailError (resp maxRetries))) ∧
    getEntry (deepseekFailError (resp maxRetries)).details "status_code"
        = some (toString (resp maxRetries).status) ∧
    getEntry (deepseekFailError (resp maxRetries)).details "response"
        = some (resp maxRetries).body ∧
    callOpenaiApi 3 maxRetries resp
        = ((List.range' 1 maxRetries).map (fun n => min (3 * 2 ^ n) 60),
           Except.error (chatFailError "OpenAI" (resp maxRetries))) :=
  ⟨deepseekCallLoop_all_retryable 3 maxRetries resp hall maxRetries 0 (Nat.zero_add maxRetries),
   rfl, rfl,
   chatCallLoop_all_retryable "OpenAI" 3 maxRetries resp hall maxRetries 0 (Nat.zero_add maxRetries)⟩

/-- Witness for C7's theorem: two retries against constant 503 responses
sleep 6 then 12 seconds and the call fails with the last response. -/
theorem deepseek_retry_backoff_schedule_witness :
    (∀ n : Nat,
       retryableStatus (((fun _ : Nat => (⟨503, "unavailable", ""⟩ : HttpResp)) n).status) = true) ∧
    callDeepseekApi 3 2 (fun _ : Nat => (⟨503, "unavailable", ""⟩ : HttpResp))
      = ([6, 12], Except.error (deepseekFailError ⟨503, "unavailable", ""⟩)) := by
  refine ⟨fun _ => rfl, ?_⟩
  have h := (deepseek_retry_backoff_schedule 2 (fun _ => ⟨503, "unavailable", ""⟩)
    (fun _ => rfl)).1
  simpa using h

/-- C8: with filter `['.md']`, the file `a.md` is processed, `b.txt` is
skipped for its extension, `a_optimized.md` is skipped for the
`_optimized` substring in its name, and the run counts `total = 1`,
`skipped = 2`. -/
theorem directory_skip_rules_concrete :
    classifyFile (normalizeExts (some [".md"])) "a.md" = FileFate.processed ∧
    classifyFile (normalizeExts (some [".md"])) "b.txt" = FileFate.skippedExt ∧
    classifyFile (normalizeExts (some [".md"])) "a_optimized.md" = FileFate.skippedOptimized ∧
    processDirectoryCounts (some [".md"]) ["a.md", "b.txt", "a_optimized.md"] = (1, 2) := by
  refine ⟨rfl, rfl, rfl, rfl⟩

/-- C9 counterexample: the claim asserts that for every Anthropic
listing response the shaped list contains exactly one entry with id
`claude-3-7-sonnet`. A response whose `models` array yields that id
twice produces two such entries (the code only guards against adding its
own fallback, not against duplicates already present). -/
theorem anthropic_duplicate_id_cex :
    ¬ ((anthropicProcessResponse
          [⟨some "claude-3-7-sonnet", none⟩, ⟨some "claude-3-7-sonnet", none⟩]).countP
        (fun m => m.id == "claude-3-7-sonnet") = 1) := by
  have h : (anthropicProcessResponse
      [⟨some "claude-3-7-sonnet", none⟩, ⟨some "claude-3-7-sonnet", none⟩]).countP
      (fun m => m.id == "claude-3-7-sonnet") = 2 := rfl
  omega

/-- C9 amended: the shaped descriptor list always contains at least one
entry with id `claude-3-7-sonnet`: when the response yields none, the
hardcoded descriptor (name "Claude 3.7 Sonnet") is appended as the only
addition; when the response already yields one or more, nothing is
added. -/
theorem anthropic_ensures_claude37 (entries : List AnthEntry) :
    (anthropicProcessResponse entries
        = if (anthropicShapeModels entries).any (fun m => m.id == "claude-3-7-sonnet")
          then anthropicShapeModels entries
          else anthropicShapeModels entries ++ [claude37Fallback]) ∧
    (anthropicProcessResponse entries).any (fun m => m.id == "claude-3-7-sonnet") = true := by
  constructor
  · rfl
  · unfold anthropicProcessResponse
    by_cases h : (anthropicShapeModels entries).any (fun m => m.id == "claude-3-7-sonnet") = true
    · simp only [h, if_true]
    · simp only [h, if_false]
      simp [claude37Fallback]

/-- C10: when the traversal of `update_config` succeeds but the
subsequent file write fails, the call returns false, yet the in-memory
configuration already holds the new value (so `get_config_value` on the
same path returns it) while the backing file is unchanged. -/
theorem update_config_not_atomic (st : CMState) (path : List String) (v : PyVal)
    (cfg' : PyVal) (hok : updatePath st.config path v = Except.ok cfg') :
    ConfigManager.updateConfig st false path v = (false, ⟨cfg', st.file⟩) ∧
    ConfigManager.getConfigValue ⟨cfg', st.file⟩ path = some v := by
  constructor
  · unfold ConfigManager.updateConfig
    rw [hok]
    rfl
  · exact getPath_updatePath _ _ _ _ hok

/-- Witness for C10's theorem: updating key `k` with a failing write
leaves the new value in memory and the old content in the file. -/
theorem update_config_not_atomic_witness :
    updatePath (PyVal.dict [("k", PyVal.prim "old")]) ["k"] (PyVal.prim "new")
        = Except.ok (PyVal.dict [("k", PyVal.prim "new")]) ∧
    ConfigManager.updateConfig
        ⟨PyVal.dict [("k", PyVal.prim "old")], PyVal.dict [("k", PyVal.prim "old")]⟩
        false ["k"] (PyVal.prim "new")
      = (false, ⟨PyVal.dict [("k", PyVal.prim "new")], PyVal.dict [("k", PyVal.prim "old")]⟩) ∧
    ConfigManager.getConfigValue
        ⟨PyVal.dict [("k", PyVal.prim "new")], PyVal.dict [("k", PyVal.prim "old")]⟩
        ["k"] = some (PyVal.prim "new") := by
  have h := update_config_not_atomic
    ⟨PyVal.dict [("k", PyVal.prim "old")], PyVal.dict [("k", PyVal.prim "old")]⟩
    ["k"] (PyVal.prim "new") (PyVal.dict [("k", PyVal.prim "new")]) rfl
  exact ⟨rfl, h.1, h.2⟩

end PromptFactory
